import Mathlib

/-
Verification of the pipeline-definition builder in
src/resources/sagemaker/pipeline-modelbuild-code/pipelines/blockchain/pipeline.py.

The builder is shallowly embedded: external platform calls (SSM parameter
store, image-URI lookup, execution-role resolution, pipeline-object
construction, project-tag lookup) are modelled by an environment record whose
fields hold the result each call would return (an `Except` value: either the
returned data or the raised exception).  The SageMaker SDK objects that the
script assembles are modelled by plain Lean structures carrying exactly the
configuration the script passes to them.  Python dictionaries keyed by strings
are modelled as association lists with insert-or-replace update, and Python's
`float` values (used only for the validation thresholds, which are parsed from
strings, stored, and never computed with) are modelled as rationals.
-/

/-- An exception raised by an external call or by a failed dictionary lookup
(Python `KeyError`).  Only the message is modelled. -/
structure PyErr where
  msg : String
deriving Repr, DecidableEq

/-- One entry returned by `ssm_client.get_parameters_by_path`: the full
parameter path and its string value. -/
structure SSMParam where
  name : String
  value : String
deriving Repr, DecidableEq

/-- Python dict update `d[k] = v` on a string-keyed association list:
replace the value when the key is present, append otherwise. -/
def dictSet {α : Type} (d : List (String × α)) (k : String) (v : α) :
    List (String × α) :=
  if d.any (fun q => q.1 == k) then
    d.map (fun q => if q.1 == k then (k, v) else q)
  else d ++ [(k, v)]

/-- Python dict read `d[k]`: the stored value, or a `KeyError` when absent. -/
def dictGet {α : Type} (d : List (String × α)) (k : String) : Except PyErr α :=
  match d.find? (fun q => q.1 == k) with
  | some q => Except.ok q.2
  | none => Except.error ⟨"KeyError: " ++ k⟩

/-- Value of a nonempty decimal digit string, `none` on any non-digit. -/
def digitsVal? (cs : List Char) : Option Nat :=
  if cs = [] then none
  else
    cs.foldl
      (fun acc c =>
        acc.bind (fun n => if c.isDigit then some (n * 10 + (c.toNat - 48)) else none))
      (some 0)

/-- Split a character list at every occurrence of the separator, keeping empty
segments (the behaviour of Python `str.split(sep)` with a one-character
separator); `acc` holds the current segment reversed. -/
def splitOnCharAux (c : Char) : List Char → List Char → List (List Char)
  | acc, [] => [acc.reverse]
  | acc, x :: xs =>
    if x = c then acc.reverse :: splitOnCharAux c [] xs
    else splitOnCharAux c (x :: acc) xs

/-- Python `s.split(c)` for a one-character separator. -/
def splitOnChar (c : Char) (s : String) : List String :=
  (splitOnCharAux c [] s.data).map String.mk

/-- Python `float(s)` for the plain decimal literals this program stores in the
parameter store (optional sign, digits, optional fraction), modelled over the
rationals; `none` models `float` raising `ValueError`.  Exotic accepted forms
(exponents, `inf`, `nan`, surrounding whitespace) are not needed by any claim
and are modelled as failures. -/
def pyFloat (s : String) : Option Rat :=
  let unsigned : List Char → Option Rat := fun body =>
    match splitOnCharAux '.' [] body with
    | [ip] => (digitsVal? ip).map (fun n => (n : Rat))
    | [ip, fp] =>
      match digitsVal? ip, digitsVal? fp with
      | some n, some f => some ((n : Rat) + (f : Rat) / ((10 : Rat) ^ fp.length))
      | _, _ => none
    | _ => none
  match s.data with
  | '-' :: rest => (unsigned rest).map (fun q => -q)
  | '+' :: rest => unsigned rest
  | cs => unsigned cs

/-- Python `path.split("/")[-1]`: the last slash-separated component. -/
def lastComponent (s : String) : String :=
  (splitOnChar '/' s).getLastD ""

/-- The guarded string-valued parameter-store reads (pipeline.py lines 244-254
and 256-267): on success the returned parameters are folded into a dict keyed
by the last path component; on failure the dict is left empty and the error is
printed.  Returns the dict and the lines printed. -/
def readParams (r : Except PyErr (List SSMParam)) (label : String) :
    List (String × String) × List String :=
  match r with
  | Except.error e => ([], ["An error occurred reading the " ++ label ++ ": " ++ e.msg])
  | Except.ok ps =>
    (ps.foldl (fun d q => dictSet d (lastComponent q.name) q.value) [], [])

/-- Loop body of the validation-threshold read (pipeline.py lines 277-278):
each value is converted with `float`; a conversion failure raises out of the
loop, keeping the entries already inserted. -/
def thresholdsLoop : List (String × Rat) → List SSMParam →
    List (String × Rat) × List String
  | d, [] => (d, [])
  | d, q :: rest =>
    match pyFloat q.value with
    | some v => thresholdsLoop (dictSet d (lastComponent q.name) v) rest
    | none =>
      (d, ["An error occurred reading the model validation thresholds: " ++
        "could not convert string to float: " ++ q.value])

/-- The guarded validation-threshold read (pipeline.py lines 269-280): like
`readParams` but with `float` conversion of each value; both a read failure
and a conversion failure are caught by the same handler. -/
def readThresholds (r : Except PyErr (List SSMParam)) :
    List (String × Rat) × List String :=
  match r with
  | Except.error e =>
    ([], ["An error occurred reading the model validation thresholds: " ++ e.msg])
  | Except.ok ps => thresholdsLoop [] ps

/-- A reference to an attribute of an earlier step that the external engine
resolves at execution time, e.g.
`step.properties.ProcessingOutputConfig.Outputs["train"].S3Output.S3Uri`:
the referenced step's name and the attribute path. -/
structure PropertyRef where
  stepName : String
  path : List String
deriving Repr, DecidableEq

/-- One element of a `Join` value: a literal string, a property reference, or
an execution variable such as `ExecutionVariables.PIPELINE_EXECUTION_ID`. -/
inductive PipePart where
  | lit (s : String)
  | propRef (r : PropertyRef)
  | execVar (n : String)
deriving Repr, DecidableEq

/-- A `sagemaker.workflow.functions.Join`: separator and joined elements
(this script never nests joins). -/
structure JoinSpec where
  sep : String
  values : List PipePart
deriving Repr, DecidableEq

/-- A value handed to the SDK that is either a single element or a `Join`. -/
inductive PipeVal where
  | part (q : PipePart)
  | join (j : JoinSpec)
deriving Repr, DecidableEq

/-- An execution-time pipeline parameter placeholder (`ParameterInteger`,
`ParameterString`, `ParameterBoolean`) with its name and default value. -/
inductive Param where
  | pInt (name : String) (defaultValue : Int)
  | pStr (name : String) (defaultValue : String)
  | pBool (name : String) (defaultValue : Bool)
deriving Repr, DecidableEq

/-- An entry of the `Pipeline(parameters=[...])` list: either a parameter
placeholder object or a plain string constant (the script passes both). -/
inductive ParamEntry where
  | param (p : Param)
  | strConst (s : String)
deriving Repr, DecidableEq

/-- A `JsonGet` into a property file produced by an earlier step. -/
structure JsonGetSpec where
  stepName : String
  propertyFile : String
  jsonPath : String
deriving Repr, DecidableEq

/-- A workflow condition; the script builds one `ConditionLessThanOrEqualTo`
whose left side is a `JsonGet` and whose right side is a float threshold. -/
inductive ConditionSpec where
  | lessThanOrEqualTo (left : JsonGetSpec) (right : Rat)
deriving Repr, DecidableEq

/-- A `ProcessingOutput`: output name and local source directory. -/
structure ProcessingOutputSpec where
  outputName : String
  source : String
deriving Repr, DecidableEq

/-- A `ProcessingInput`: data source and local destination directory. -/
structure ProcessingInputSpec where
  source : PipeVal
  destination : String
deriving Repr, DecidableEq

/-- A `PropertyFile` declaration. -/
structure PropertyFileSpec where
  name : String
  outputName : String
  path : String
deriving Repr, DecidableEq

/-- A `ScriptProcessor` together with its `.run(...)` arguments. -/
structure ProcessingRunSpec where
  imageUri : String
  command : List String
  instanceType : String
  instanceCount : Nat
  baseJobName : String
  role : String
  inputs : List ProcessingInputSpec
  outputs : List ProcessingOutputSpec
  code : String
  arguments : List String
deriving Repr, DecidableEq

/-- The `Estimator` configuration including the hyperparameters set by
`set_hyperparameters` (pipeline.py lines 336-358). -/
structure EstimatorSpec where
  imageUri : String
  role : String
  instanceCount : Nat
  instanceType : String
  baseJobName : String
  useSpotInstances : Bool
  maxRun : Nat
  maxWait : Nat
  outputPath : String
  hyperparameters : List (String × String)
deriving Repr, DecidableEq

/-- One channel of `Estimator.fit(inputs={...})`: channel name, `TrainingInput`
s3 data reference and content type. -/
structure TrainingInputSpec where
  channel : String
  s3Data : PropertyRef
  contentType : String
deriving Repr, DecidableEq

/-- `Model.create(...)` configuration used by the CreateModel step. -/
structure CreateModelSpec where
  imageUri : String
  modelData : PropertyRef
  role : String
  instanceType : String
  acceleratorType : String
deriving Repr, DecidableEq

/-- The `Transformer` configuration (pipeline.py lines 415-427). -/
structure TransformerSpec where
  modelName : PropertyRef
  instanceType : String
  instanceCount : Nat
  accept : String
  strategy : String
  assembleWith : String
  outputPath : String
  env : List (String × String)
deriving Repr, DecidableEq

/-- `Transformer.transform(...)` arguments for the Transform step. -/
structure TransformRunSpec where
  transformer : TransformerSpec
  data : PipeVal
  contentType : String
  splitType : String
deriving Repr, DecidableEq

/-- The `CheckJobConfig` of the model-quality check. -/
structure CheckJobConfigSpec where
  role : String
  instanceCount : Nat
  instanceType : String
  volumeSizeInGb : Nat
deriving Repr, DecidableEq

/-- The `ModelQualityCheckConfig` (pipeline.py lines 520-540). -/
structure ModelQualityCheckConfigSpec where
  baselineDataset : PipeVal
  datasetFormatCsvHeader : Bool
  outputS3Uri : PipeVal
  problemType : String
  inferenceAttribute : String
  groundTruthAttribute : String
deriving Repr, DecidableEq

/-- The `QualityCheckStep` configuration (pipeline.py lines 542-551). -/
structure QualityCheckStepSpec where
  skipCheck : Param
  registerNewBaseline : Param
  qualityCheckConfig : ModelQualityCheckConfigSpec
  checkJobConfig : CheckJobConfigSpec
  suppliedBaselineStatistics : Param
  suppliedBaselineConstraints : Param
  modelPackageGroupName : String
deriving Repr, DecidableEq

/-- A `MetricsSource` (an s3 property reference plus content type). -/
structure MetricsSourceSpec where
  s3Uri : PropertyRef
  contentType : String
deriving Repr, DecidableEq

/-- `ModelMetrics` / `DriftCheckBaselines`: statistics and constraints sources. -/
structure ModelMetricsSpec where
  modelStatistics : MetricsSourceSpec
  modelConstraints : MetricsSourceSpec
deriving Repr, DecidableEq

/-- `Model.register(...)` configuration for the RegisterModel step
(pipeline.py lines 594-603); `imageUri` and `modelData` come from the `Model`
object the method is called on. -/
structure RegisterSpec where
  imageUri : String
  modelData : PropertyRef
  contentTypes : List String
  responseTypes : List String
  inferenceInstances : List String
  transformInstances : List String
  modelPackageGroupName : String
  approvalStatus : Param
  modelMetrics : ModelMetricsSpec
  driftCheckBaselines : ModelMetricsSpec
deriving Repr, DecidableEq

/-- A non-condition pipeline step.  The script nests no condition inside a
condition, so conditions are kept at a separate outer layer (`Step`). -/
inductive BasicStep where
  | processing (name : String) (spec : ProcessingRunSpec)
      (propertyFiles : List PropertyFileSpec) (dependsOn : List String)
  | training (name : String) (spec : EstimatorSpec)
      (inputs : List TrainingInputSpec) (dependsOn : List String)
  | createModel (name : String) (spec : CreateModelSpec)
  | transform (name : String) (spec : TransformRunSpec)
  | qualityCheck (name : String) (spec : QualityCheckStepSpec)
  | registerModel (name : String) (spec : RegisterSpec)
deriving Repr, DecidableEq

/-- A top-level pipeline step: a basic step or a `ConditionStep` whose
branches hold basic steps. -/
inductive Step where
  | basic (s : BasicStep)
  | condition (name : String) (conditions : List ConditionSpec)
      (ifSteps : List BasicStep) (elseSteps : List BasicStep)
deriving Repr, DecidableEq

/-- The `Pipeline` object returned by the builder: name, parameter list and
ordered step list. -/
structure PipelineSpec where
  name : String
  parameters : List ParamEntry
  steps : List Step
deriving Repr, DecidableEq

/-- pipeline.py line 74. -/
def LOCAL_DATA_DIR : String := "/opt/ml/processing/data"

/-- pipeline.py line 76. -/
def LOCAL_TEST_DIR : String := LOCAL_DATA_DIR ++ "/test"

/-- pipeline.py line 77. -/
def LOCAL_TRANSFORM_DIR : String := LOCAL_DATA_DIR ++ "/transform"

/-- pipeline.py line 78. -/
def LOCAL_EVALUATION_DIR : String := LOCAL_DATA_DIR ++ "/evaluation"

/-- pipeline.py line 81. -/
def PROCESSING_STEP_NAME : String := "PreprocessData"

/-- pipeline.py line 82. -/
def PROCESSING_JOB_NAME : String := "PreprocessingJob"

/-- pipeline.py line 83. -/
def TRAINING_JOB_NAME : String := "TrainingJob"

/-- pipeline.py line 84. -/
def TRAINING_STEP_NAME : String := "TrainModel"

/-- pipeline.py line 85. -/
def CREATE_MODEL_STEP_NAME : String := "CreateModel"

/-- pipeline.py line 86. -/
def TRANSFORM_STEP_NAME : String := "Transform"

/-- pipeline.py line 89. -/
def MODEL_QUALITY_CHECK_STEP_NAME : String := "QualityCheck"

/-- pipeline.py line 90. -/
def EVALUATION_JOB_NAME : String := "EvaluationJob"

/-- pipeline.py line 91. -/
def EVALUATION_REPORT_NAME : String := "EvaluationReport"

/-- pipeline.py line 92. -/
def EVALUATION_STEP_NAME : String := "EvaluateModel"

/-- pipeline.py line 93. -/
def REGISTER_MODEL_STEP_NAME : String := "RegisterModel"

/-- pipeline.py line 94 (the source misspells the constant's name). -/
def CONDITON_STEP_NAME : String := "CheckMQLCondition"

/-- pipeline.py line 97. -/
def BASE_INSTANCE_TYPE : String := "ml.m5.large"

/-- pipeline.py line 98. -/
def PROCESSING_INSTANCE_TYPE : String := "ml.t3.medium"

/-- pipeline.py line 99. -/
def TRAINING_INSTANCE_TYPE : String := "ml.c5.2xlarge"

/-- pipeline.py line 100. -/
def CREATE_MODEL_INSTANCE_TYPE : String := BASE_INSTANCE_TYPE

/-- pipeline.py line 101. -/
def TRANSFORM_INSTANCE_TYPE : String := BASE_INSTANCE_TYPE

/-- pipeline.py line 102. -/
def CHECK_INSTANCE_TYPE : String := BASE_INSTANCE_TYPE

/-- pipeline.py line 103. -/
def INFERENCE_INSTANCES_TYPE : List String := ["ml.t2.medium", BASE_INSTANCE_TYPE]

/-- pipeline.py line 104. -/
def ACCELERATOR_TYPE : String := "ml.eia1.medium"

/-- `json.dumps(deepar_environment_param)` for the dict literal of
pipeline.py lines 409-413. -/
def DEEPAR_INFERENCE_CONFIG_JSON : String :=
  "\x7b\"num_samples\": 100, \"output_types\": [\"quantiles\", \"mean\"], " ++
  "\"quantiles\": [\"0.1\", \"0.5\", \"0.9\"]\x7d"

/-- Results of the external platform calls `get_pipeline` performs, one field
per call site: the data returned on success or the exception raised. -/
structure Env where
  getParameterFeatureGroup : Except PyErr String
  getParametersTarget : Except PyErr (List SSMParam)
  getParametersHyper : Except PyErr (List SSMParam)
  getParametersThresholds : Except PyErr (List SSMParam)
  basePythonImageUri : Except PyErr String
  deeparImageUri : Except PyErr String
  executionRole : Except PyErr String
  defaultBucket : String
  baseDir : String
  pipelineConstruct : Except PyErr Unit

/-- pipeline.py lines 206-207: a caller-supplied role is used as is; otherwise
`sagemaker.session.get_execution_role` is consulted (and may raise). -/
def resolveRole (roleArg : Option String) (env : Env) : Except PyErr String :=
  match roleArg with
  | some r => Except.ok r
  | none => env.executionRole

deriving instance DecidableEq for Except

/-- What `get_pipeline` produces: the lines printed to standard output and
either the returned pipeline or the exception that escaped to the caller. -/
structure BuildResult where
  logs : List String
  result : Except PyErr PipelineSpec
deriving Repr, DecidableEq

/-- One fallible statement of the builder: on success continue with the value
and the log so far, on failure the exception escapes with the log so far. -/
def bstep {α : Type} (r : Except PyErr α) (k : α → List String → BuildResult)
    (logs : List String) : BuildResult :=
  match r with
  | Except.ok a => k a logs
  | Except.error e => ⟨logs, Except.error e⟩

/-- The pipeline object `get_pipeline` assembles once every external lookup
and every dictionary access has succeeded, as a function of the resolved
values (pipeline.py lines 211-653). -/
def mkPipeline (region role bucket basePrefixName feature_group_name
    processing_image_uri deepar_image_uri freq target_col prediction_length
    epochs early_stopping_patience mini_batch_size learning_rate
    baseDir model_package_group_name : String) (mql : Rat) : PipelineSpec :=
  let step_preprocessing : Step := Step.basic (BasicStep.processing
    PROCESSING_STEP_NAME
    { imageUri := processing_image_uri
      command := ["python3"]
      instanceType := PROCESSING_INSTANCE_TYPE
      instanceCount := 1
      baseJobName := PROCESSING_JOB_NAME
      role := role
      inputs := []
      outputs := [⟨"train", LOCAL_DATA_DIR ++ "/train"⟩,
        ⟨"validation", LOCAL_DATA_DIR ++ "/validation"⟩,
        ⟨"test", LOCAL_DATA_DIR ++ "/test"⟩]
      code := baseDir ++ "/preprocess.py"
      arguments := ["--region", region,
        "--feature-group-name", feature_group_name,
        "--artifacts-bucket", bucket,
        "--base-job-prefix", basePrefixName,
        "--freq", freq,
        "--target-col", target_col,
        "--prediction-length", prediction_length] }
    [] [])
  let step_train : Step := Step.basic (BasicStep.training
    TRAINING_STEP_NAME
    { imageUri := deepar_image_uri
      role := role
      instanceCount := 1
      instanceType := TRAINING_INSTANCE_TYPE
      baseJobName := TRAINING_JOB_NAME
      useSpotInstances := true
      maxRun := 60 * 60 - 1
      maxWait := 60 * 60
      outputPath := "s3://" ++ bucket ++ "/" ++ basePrefixName ++ "/model_training/output"
      hyperparameters := [("time_freq", freq), ("epochs", epochs),
        ("early_stopping_patience", early_stopping_patience),
        ("mini_batch_size", mini_batch_size),
        ("learning_rate", learning_rate),
        ("context_length", prediction_length),
        ("prediction_length", prediction_length),
        ("likelihood", "negative-binomial")] }
    [⟨"train", ⟨PROCESSING_STEP_NAME,
        ["ProcessingOutputConfig", "Outputs", "train", "S3Output", "S3Uri"]⟩, "json"⟩,
      ⟨"test", ⟨PROCESSING_STEP_NAME,
        ["ProcessingOutputConfig", "Outputs", "validation", "S3Output", "S3Uri"]⟩, "json"⟩]
    [PROCESSING_STEP_NAME])
  let step_create_model : Step := Step.basic (BasicStep.createModel
    CREATE_MODEL_STEP_NAME
    { imageUri := deepar_image_uri
      modelData := ⟨TRAINING_STEP_NAME, ["ModelArtifacts", "S3ModelArtifacts"]⟩
      role := role
      instanceType := CREATE_MODEL_INSTANCE_TYPE
      acceleratorType := ACCELERATOR_TYPE })
  let step_transform : Step := Step.basic (BasicStep.transform
    TRANSFORM_STEP_NAME
    { transformer :=
        { modelName := ⟨CREATE_MODEL_STEP_NAME, ["ModelName"]⟩
          instanceType := TRANSFORM_INSTANCE_TYPE
          instanceCount := 1
          accept := "application/jsonlines"
          strategy := "SingleRecord"
          assembleWith := "Line"
          outputPath := "s3://" ++ bucket ++ "/" ++ basePrefixName ++ "/batch_transform/output"
          env := [("DEEPAR_INFERENCE_CONFIG", DEEPAR_INFERENCE_CONFIG_JSON)] }
      data := PipeVal.join ⟨"/",
        [PipePart.propRef ⟨PROCESSING_STEP_NAME,
          ["ProcessingOutputConfig", "Outputs", "test", "S3Output", "S3Uri"]⟩,
         PipePart.lit "test-inputs.json"]⟩
      contentType := "application/jsonlines"
      splitType := "Line" })
  let evaluation_report : PropertyFileSpec :=
    ⟨EVALUATION_REPORT_NAME, "evaluation", "evaluation.json"⟩
  let step_eval : Step := Step.basic (BasicStep.processing
    EVALUATION_STEP_NAME
    { imageUri := processing_image_uri
      command := ["python3"]
      instanceType := PROCESSING_INSTANCE_TYPE
      instanceCount := 1
      baseJobName := EVALUATION_JOB_NAME
      role := role
      inputs := [⟨PipeVal.part (PipePart.propRef ⟨PROCESSING_STEP_NAME,
          ["ProcessingOutputConfig", "Outputs", "test", "S3Output", "S3Uri"]⟩),
          LOCAL_TEST_DIR⟩,
        ⟨PipeVal.part (PipePart.propRef ⟨TRANSFORM_STEP_NAME,
          ["TransformOutput", "S3OutputPath"]⟩), LOCAL_TRANSFORM_DIR⟩]
      outputs := [⟨"evaluation", LOCAL_EVALUATION_DIR⟩]
      code := baseDir ++ "/evaluate.py"
      arguments := ["--target-col", target_col] }
    [evaluation_report] [TRANSFORM_STEP_NAME])
  let model_quality_check_step : Step := Step.basic (BasicStep.qualityCheck
    MODEL_QUALITY_CHECK_STEP_NAME
    { skipCheck := Param.pBool "SkipModelQualityCheck" false
      registerNewBaseline := Param.pBool "RegisterNewModelQualityBaseline" false
      qualityCheckConfig :=
        { baselineDataset := PipeVal.join ⟨"/",
            [PipePart.propRef ⟨EVALUATION_STEP_NAME,
              ["ProcessingOutputConfig", "Outputs", "evaluation", "S3Output", "S3Uri"]⟩,
             PipePart.lit "targets-quantiles.csv"]⟩
          datasetFormatCsvHeader := true
          outputS3Uri := PipeVal.join ⟨"/",
            [PipePart.lit "s3:/", PipePart.lit bucket, PipePart.lit basePrefixName,
             PipePart.execVar "PIPELINE_EXECUTION_ID", PipePart.lit "modelqualitycheck"]⟩
          problemType := "Regression"
          inferenceAttribute := "quantile5"
          groundTruthAttribute := "target" }
      checkJobConfig :=
        { role := role
          instanceCount := 1
          instanceType := CHECK_INSTANCE_TYPE
          volumeSizeInGb := 120 }
      suppliedBaselineStatistics := Param.pStr "ModelQualitySuppliedStatistics" ""
      suppliedBaselineConstraints := Param.pStr "ModelQualitySuppliedConstraints" ""
      modelPackageGroupName := model_package_group_name })
  let step_register : BasicStep := BasicStep.registerModel
    REGISTER_MODEL_STEP_NAME
    { imageUri := deepar_image_uri
      modelData := ⟨TRAINING_STEP_NAME, ["ModelArtifacts", "S3ModelArtifacts"]⟩
      contentTypes := ["application/json"]
      responseTypes := ["application/json"]
      inferenceInstances := INFERENCE_INSTANCES_TYPE
      transformInstances := [TRANSFORM_INSTANCE_TYPE]
      modelPackageGroupName := model_package_group_name
      approvalStatus := Param.pStr "ModelApprovalStatus" "PendingManualApproval"
      modelMetrics :=
        { modelStatistics := ⟨⟨MODEL_QUALITY_CHECK_STEP_NAME,
            ["CalculatedBaselineStatistics"]⟩, "application/json"⟩
          modelConstraints := ⟨⟨MODEL_QUALITY_CHECK_STEP_NAME,
            ["CalculatedBaselineConstraints"]⟩, "application/json"⟩ }
      driftCheckBaselines :=
        { modelStatistics := ⟨⟨MODEL_QUALITY_CHECK_STEP_NAME,
            ["BaselineUsedForDriftCheckStatistics"]⟩, "application/json"⟩
          modelConstraints := ⟨⟨MODEL_QUALITY_CHECK_STEP_NAME,
            ["BaselineUsedForDriftCheckConstraints"]⟩, "application/json"⟩ } }
  let step_cond : Step := Step.condition CONDITON_STEP_NAME
    [ConditionSpec.lessThanOrEqualTo
      ⟨EVALUATION_STEP_NAME, EVALUATION_REPORT_NAME,
        "deepar_metrics.mean_quantile_loss.value"⟩ mql]
    [step_register] []
  { name := basePrefixName
    parameters := [
      ParamEntry.strConst PROCESSING_INSTANCE_TYPE,
      ParamEntry.param (Param.pInt "ProcessingInstanceCount" 1),
      ParamEntry.strConst TRAINING_INSTANCE_TYPE,
      ParamEntry.param (Param.pStr "ModelApprovalStatus" "PendingManualApproval"),
      ParamEntry.strConst feature_group_name,
      ParamEntry.param (Param.pBool "SkipModelQualityCheck" false),
      ParamEntry.param (Param.pBool "RegisterNewModelQualityBaseline" false),
      ParamEntry.param (Param.pStr "ModelQualitySuppliedStatistics" ""),
      ParamEntry.param (Param.pStr "ModelQualitySuppliedConstraints" "")]
    steps := [step_preprocessing, step_train, step_create_model, step_transform,
      step_eval, model_quality_check_step, step_cond] }

/-- The builder `get_pipeline` (pipeline.py lines 179-653).  Arguments mirror
the Python signature; `none` selects the Python default (`None`), and the
Python default for `model_package_group_name` is the string "Blockchain".
Fallible operations appear in source order: role resolution, the unguarded
feature-group-name read, the three guarded parameter reads, the base-python
image lookup, the dict reads for the preprocessing arguments, the DeepAR image
lookup, the dict reads for the training hyperparameters, the dict read of the
mean-quantile-loss threshold (first performed inside the print of line 611),
and the `Pipeline(...)` construction.  A dict key read a second time by the
source (freq, target_col) is reused, which is observably identical because
the dicts are never modified after being filled. -/
def get_pipeline (env : Env) (region : String) (roleArg : Option String)
    (default_bucket : Option String) (sagemaker_project_name : Option String)
    (sagemaker_project_id : Option String) (model_package_group_name : String) :
    BuildResult :=
  let projName := sagemaker_project_name.getD "blockchain-forecasting"
  let projId := sagemaker_project_id.getD "mlops-pipeline"
  let basePrefixName := projName ++ "-" ++ projId
  let bucket := default_bucket.getD env.defaultBucket
  bstep (resolveRole roleArg env) (fun role logsA =>
    bstep env.getParameterFeatureGroup (fun feature_group_name logsB =>
      let tgt := readParams env.getParametersTarget "model target parameters"
      let hyp := readParams env.getParametersHyper "model training hyperparameters"
      let thr := readThresholds env.getParametersThresholds
      let logsC := logsB ++ tgt.2 ++ hyp.2 ++ thr.2
      bstep env.basePythonImageUri (fun processing_image_uri logsD =>
        bstep (dictGet tgt.1 "freq") (fun freq logsE =>
          bstep (dictGet tgt.1 "target_col") (fun target_col logsF =>
            bstep (dictGet tgt.1 "prediction_length") (fun prediction_length logsG =>
              bstep env.deeparImageUri (fun deepar_image_uri logsH =>
                bstep (dictGet hyp.1 "epochs") (fun epochs logsI =>
                  bstep (dictGet hyp.1 "early_stopping_patience") (fun esp logsJ =>
                    bstep (dictGet hyp.1 "mini_batch_size") (fun mbs logsK =>
                      bstep (dictGet hyp.1 "learning_rate") (fun lr logsL =>
                        bstep (dictGet thr.1 "mean_quantile_loss") (fun mql logsM =>
                          bstep env.pipelineConstruct (fun _ logsN =>
                            ⟨logsN, Except.ok (mkPipeline region role bucket
                              basePrefixName feature_group_name
                              processing_image_uri deepar_image_uri freq
                              target_col prediction_length epochs esp mbs lr
                              env.baseDir model_package_group_name mql)⟩)
                            (logsM ++
                              ["model validation threshold used is : mean_quantile_loss <= "
                                ++ toString mql]))
                          logsL)
                        logsK)
                      logsJ)
                    logsI)
                  logsH)
                logsG)
              logsF)
            logsE)
          logsD)
        logsC)
      logsA)
    []

/-- A project tag: key and value. -/
abbrev Tag := String × String

/-- Results of the external calls `get_pipeline_custom_tags` performs:
`describe_project` (including the `ProjectArn` field access) as a function of
the project name, and `list_tags` (including the `Tags` field access) as a
function of the project ARN. -/
structure TagEnv where
  describeProject : Option String → Except PyErr String
  listTags : String → Except PyErr (List Tag)

/-- `get_pipeline_custom_tags` (pipeline.py lines 164-176): fetch the project
ARN and its tags and append them to the caller-supplied list; any failure is
caught, printed, and the list accumulated so far is returned.  Returns the tag
list and the lines printed.  The `region` argument only selects the client and
is not otherwise used by the model. -/
def get_pipeline_custom_tags (env : TagEnv) (new_tags : List Tag)
    (region : String) (sagemaker_project_name : Option String) :
    List Tag × List String :=
  match env.describeProject sagemaker_project_name with
  | Except.error e => (new_tags, ["Error getting project tags: " ++ e.msg])
  | Except.ok arn =>
    match env.listTags arn with
    | Except.error e => (new_tags, ["Error getting project tags: " ++ e.msg])
    | Except.ok project_tags => (new_tags ++ project_tags, [])

/-- The name of a non-condition step. -/
def basicStepName : BasicStep → String
  | BasicStep.processing n _ _ _ => n
  | BasicStep.training n _ _ _ => n
  | BasicStep.createModel n _ => n
  | BasicStep.transform n _ => n
  | BasicStep.qualityCheck n _ => n
  | BasicStep.registerModel n _ => n

/-- The name of a top-level step. -/
def stepName : Step → String
  | Step.basic s => basicStepName s
  | Step.condition n _ _ _ => n

/-- Step names referenced by an element of a `Join` value. -/
def pipePartRefs : PipePart → List String
  | PipePart.propRef r => [r.stepName]
  | _ => []

/-- Step names referenced by a value handed to the SDK. -/
def pipeValRefs : PipeVal → List String
  | PipeVal.part q => pipePartRefs q
  | PipeVal.join j => (j.values.map pipePartRefs).flatten

/-- Step names referenced by a condition (through its `JsonGet`). -/
def condRefs : ConditionSpec → List String
  | ConditionSpec.lessThanOrEqualTo l _ => [l.stepName]

/-- All step names a non-condition step refers to, through property
references, inputs, metrics sources or explicit `depends_on` lists. -/
def basicStepRefs : BasicStep → List String
  | BasicStep.processing _ spec _ dep =>
    (spec.inputs.map (fun i => pipeValRefs i.source)).flatten ++ dep
  | BasicStep.training _ _ inputs dep =>
    inputs.map (fun i => i.s3Data.stepName) ++ dep
  | BasicStep.createModel _ spec => [spec.modelData.stepName]
  | BasicStep.transform _ spec =>
    spec.transformer.modelName.stepName :: pipeValRefs spec.data
  | BasicStep.qualityCheck _ spec =>
    pipeValRefs spec.qualityCheckConfig.baselineDataset ++
      pipeValRefs spec.qualityCheckConfig.outputS3Uri
  | BasicStep.registerModel _ spec =>
    [spec.modelData.stepName,
      spec.modelMetrics.modelStatistics.s3Uri.stepName,
      spec.modelMetrics.modelConstraints.s3Uri.stepName,
      spec.driftCheckBaselines.modelStatistics.s3Uri.stepName,
      spec.driftCheckBaselines.modelConstraints.s3Uri.stepName]

/-- All step names a top-level step refers to; for a condition step this
includes the references of the steps nested in its branches. -/
def stepRefs : Step → List String
  | Step.basic s => basicStepRefs s
  | Step.condition _ cs ifs els =>
    (cs.map condRefs).flatten ++ (ifs.map basicStepRefs).flatten ++
      (els.map basicStepRefs).flatten

/-- Each step in the list refers only to names of steps occurring before it
(`seen` holds the names already defined). -/
def refsWellOrderedAux : List String → List Step → Bool
  | _, [] => true
  | seen, s :: rest =>
    (stepRefs s).all (fun r => seen.contains r) &&
      refsWellOrderedAux (stepName s :: seen) rest

/-- Every property reference or dependency in the step list points only to an
earlier step. -/
def refsWellOrdered (steps : List Step) : Bool :=
  refsWellOrderedAux [] steps

/-- The conditions of a condition step (empty for other steps). -/
def condConditions : Step → List ConditionSpec
  | Step.condition _ cs _ _ => cs
  | _ => []

/-- The names of the steps in the if-branch of a condition step. -/
def condIfStepNames : Step → List String
  | Step.condition _ _ ifs _ => ifs.map basicStepName
  | _ => []

/-- The steps in the else-branch of a condition step. -/
def condElseSteps : Step → List BasicStep
  | Step.condition _ _ _ els => els
  | _ => []

/-- The last top-level step of a pipeline (the script places the condition
step there). -/
def lastStep (p : PipelineSpec) : Step :=
  p.steps.getLastD (Step.condition "" [] [] [])

/-- The estimator of a training step, if any. -/
def basicEstimator? : BasicStep → Option EstimatorSpec
  | BasicStep.training _ e _ _ => some e
  | _ => none

/-- All estimators of a top-level step, including those nested in a
condition's branches. -/
def stepEstimators : Step → List EstimatorSpec
  | Step.basic s => (basicEstimator? s).toList
  | Step.condition _ _ ifs els => (ifs ++ els).filterMap basicEstimator?

/-- Every training-job specification occurring anywhere in the pipeline. -/
def pipelineEstimators (p : PipelineSpec) : List EstimatorSpec :=
  p.steps.flatMap stepEstimators

/-- A configuration in which every external lookup succeeds with well-formed
values (integer-string threshold so the float parse is exact). -/
def sampleEnv : Env :=
  { getParameterFeatureGroup := Except.ok "fg-blockchain"
    getParametersTarget := Except.ok [
      ⟨"/rdi-mlops/sagemaker/model-build/target/freq", "H"⟩,
      ⟨"/rdi-mlops/sagemaker/model-build/target/target_col", "tx_count"⟩,
      ⟨"/rdi-mlops/sagemaker/model-build/target/prediction_length", "24"⟩]
    getParametersHyper := Except.ok [
      ⟨"/rdi-mlops/sagemaker/model-build/training-hyperparameters/epochs", "50"⟩,
      ⟨"/rdi-mlops/sagemaker/model-build/training-hyperparameters/early_stopping_patience", "10"⟩,
      ⟨"/rdi-mlops/sagemaker/model-build/training-hyperparameters/mini_batch_size", "64"⟩,
      ⟨"/rdi-mlops/sagemaker/model-build/training-hyperparameters/learning_rate", "0.001"⟩]
    getParametersThresholds := Except.ok [
      ⟨"/rdi-mlops/sagemaker/model-build/validation-threshold/mean_quantile_loss", "2"⟩]
    basePythonImageUri := Except.ok "base-python:310"
    deeparImageUri := Except.ok "deepar:1"
    executionRole := Except.ok "arn:aws:iam::123456789012:role/pipeline"
    defaultBucket := "artifacts-bucket"
    baseDir := "/src/pipelines/blockchain"
    pipelineConstruct := Except.ok () }

/-- `sampleEnv` with the training-hyperparameters read failing. -/
def sampleEnvHyperFail : Env :=
  { sampleEnv with getParametersHyper := Except.error ⟨"ThrottlingException"⟩ }

/-- `sampleEnv` with the feature-group-name read failing. -/
def sampleEnvFgFail : Env :=
  { sampleEnv with getParameterFeatureGroup := Except.error ⟨"AccessDeniedException"⟩ }

/-- `sampleEnv` with the base-python image lookup failing. -/
def sampleEnvImageFail : Env :=
  { sampleEnv with basePythonImageUri := Except.error ⟨"ConnectionError"⟩ }

/-- `sampleEnv` with the DeepAR image lookup failing. -/
def sampleEnvDeeparFail : Env :=
  { sampleEnv with deeparImageUri := Except.error ⟨"ValueError"⟩ }

/-- `sampleEnv` with execution-role resolution failing. -/
def sampleEnvRoleFail : Env :=
  { sampleEnv with executionRole := Except.error ⟨"NoCredentialsError"⟩ }

/-- `sampleEnv` with `Pipeline(...)` construction failing. -/
def sampleEnvConstructFail : Env :=
  { sampleEnv with pipelineConstruct := Except.error ⟨"TypeError"⟩ }

/-- The pipeline `get_pipeline` returns under `sampleEnv` with an explicit
role, no explicit bucket, default project name and id, and the default model
package group name. -/
def samplePipeline : PipelineSpec :=
  mkPipeline "eu-west-1" "arn:aws:iam::123456789012:role/pipeline"
    "artifacts-bucket" "blockchain-forecasting-mlops-pipeline" "fg-blockchain"
    "base-python:310" "deepar:1" "H" "tx_count" "24" "50" "10" "64" "0.001"
    "/src/pipelines/blockchain" "Blockchain" ((2 : Nat) : Rat)

/-- The single training-job specification of `samplePipeline` (the fallback
value is never reached). -/
def sampleEstimator : EstimatorSpec :=
  (pipelineEstimators samplePipeline).getLastD
    ⟨"", "", 0, "", "", false, 0, 0, "", []⟩

/-- A tag environment in which both lookups succeed. -/
def sampleTagEnv : TagEnv :=
  { describeProject := fun _ => Except.ok "arn:aws:sagemaker:project/p1"
    listTags := fun _ => Except.ok [("team", "mlops")] }

/-- `sampleTagEnv` with `describe_project` failing. -/
def sampleTagEnvDescribeFail : TagEnv :=
  { sampleTagEnv with describeProject := fun _ => Except.error ⟨"ValidationException"⟩ }

/-- `sampleTagEnv` with `list_tags` failing. -/
def sampleTagEnvListFail : TagEnv :=
  { sampleTagEnv with listTags := fun _ => Except.error ⟨"AccessDeniedException"⟩ }

@[simp]
theorem bstep_ok {α : Type} (a : α) (k : α → List String → BuildResult)
    (logs : List String) : bstep (Except.ok a) k logs = k a logs := rfl

@[simp]
theorem bstep_error {α : Type} (e : PyErr) (k : α → List String → BuildResult)
    (logs : List String) :
    bstep (Except.error e) k logs = ⟨logs, Except.error e⟩ := rfl

theorem bstep_ok_iff {α : Type} {r : Except PyErr α}
    {k : α → List String → BuildResult} {logs : List String} {p : PipelineSpec} :
    (bstep r k logs).result = Except.ok p ↔
      ∃ a, r = Except.ok a ∧ (k a logs).result = Except.ok p := by
  cases r <;> simp [bstep]

/-- Success inversion: whenever `get_pipeline` returns a pipeline, every
fallible lookup succeeded and the pipeline is `mkPipeline` applied to the
looked-up values. -/
theorem get_pipeline_ok_shape (env : Env) (region : String)
    (roleArg default_bucket projName projId : Option String)
    (mpg : String) (p : PipelineSpec)
    (h : (get_pipeline env region roleArg default_bucket projName projId mpg).result
      = Except.ok p) :
    ∃ role fg puri freq tcol plen duri epochs esp mbs lr mql,
      resolveRole roleArg env = Except.ok role ∧
      env.getParameterFeatureGroup = Except.ok fg ∧
      env.basePythonImageUri = Except.ok puri ∧
      dictGet (readParams env.getParametersTarget "model target parameters").1
        "freq" = Except.ok freq ∧
      dictGet (readParams env.getParametersTarget "model target parameters").1
        "target_col" = Except.ok tcol ∧
      dictGet (readParams env.getParametersTarget "model target parameters").1
        "prediction_length" = Except.ok plen ∧
      env.deeparImageUri = Except.ok duri ∧
      dictGet (readParams env.getParametersHyper "model training hyperparameters").1
        "epochs" = Except.ok epochs ∧
      dictGet (readParams env.getParametersHyper "model training hyperparameters").1
        "early_stopping_patience" = Except.ok esp ∧
      dictGet (readParams env.getParametersHyper "model training hyperparameters").1
        "mini_batch_size" = Except.ok mbs ∧
      dictGet (readParams env.getParametersHyper "model training hyperparameters").1
        "learning_rate" = Except.ok lr ∧
      dictGet (readThresholds env.getParametersThresholds).1
        "mean_quantile_loss" = Except.ok mql ∧
      env.pipelineConstruct = Except.ok () ∧
      p = mkPipeline region role (default_bucket.getD env.defaultBucket)
        ((projName.getD "blockchain-forecasting") ++ "-" ++
          (projId.getD "mlops-pipeline"))
        fg puri duri freq tcol plen epochs esp mbs lr env.baseDir mpg mql := by
  simp only [get_pipeline, bstep_ok_iff] at h
  obtain ⟨role, h1, fg, h2, puri, h3, freq, h4, tcol, h5, plen, h6, duri, h7,
    epochs, h8, esp, h9, mbs, h10, lr, h11, mql, h12, u, h13, hp⟩ := h
  cases u
  simp only [Except.ok.injEq] at hp
  exact ⟨role, fg, puri, freq, tcol, plen, duri, epochs, esp, mbs, lr, mql,
    h1, h2, h3, h4, h5, h6, h7, h8, h9, h10, h11, h12, h13, hp.symm⟩

@[simp]
theorem readParams_error (e : PyErr) (label : String) :
    readParams (Except.error e) label =
      ([], ["An error occurred reading the " ++ label ++ ": " ++ e.msg]) := rfl

@[simp]
theorem readThresholds_error (e : PyErr) :
    readThresholds (Except.error e) =
      ([], ["An error occurred reading the model validation thresholds: " ++ e.msg]) := rfl

@[simp]
theorem dictGet_nil {α : Type} (k : String) :
    dictGet ([] : List (String × α)) k = Except.error ⟨"KeyError: " ++ k⟩ := rfl

/-- C1 counterexample: with every other lookup well-formed, a failing
training-hyperparameters read does not yield a pipeline object; the catch is
logged but the build then aborts with a `KeyError` on `epochs` (pipeline.py
line 350), so the claim's "the pipeline build nevertheless completes,
returning a pipeline object" is false. -/
theorem c1_counterexample :
    get_pipeline sampleEnvHyperFail "eu-west-1" (some "r") none none none "Blockchain"
    = ⟨["An error occurred reading the model training hyperparameters: ThrottlingException"],
       Except.error ⟨"KeyError: epochs"⟩⟩ := by decide

/-- C1 (amended): if the training-hyperparameters lookup fails then the
hyperparameter mapping is left empty and the failure is logged, but the build
does not complete: assembling the training hyperparameters raises a `KeyError`
on `epochs` and no pipeline object is returned. -/
theorem c1_amended_hyper_read_failure (env : Env) (region : String)
    (roleArg default_bucket projName projId : Option String)
    (mpg role fg puri duri freq tcol plen : String) (e : PyErr)
    (hrole : resolveRole roleArg env = Except.ok role)
    (hfg : env.getParameterFeatureGroup = Except.ok fg)
    (hhyp : env.getParametersHyper = Except.error e)
    (hpuri : env.basePythonImageUri = Except.ok puri)
    (hfreq : dictGet (readParams env.getParametersTarget "model target parameters").1
      "freq" = Except.ok freq)
    (htcol : dictGet (readParams env.getParametersTarget "model target parameters").1
      "target_col" = Except.ok tcol)
    (hplen : dictGet (readParams env.getParametersTarget "model target parameters").1
      "prediction_length" = Except.ok plen)
    (hduri : env.deeparImageUri = Except.ok duri) :
    (readParams env.getParametersHyper "model training hyperparameters").1 = [] ∧
    (get_pipeline env region roleArg default_bucket projName projId mpg).result
      = Except.error ⟨"KeyError: epochs"⟩ ∧
    ("An error occurred reading the model training hyperparameters: " ++ e.msg)
      ∈ (get_pipeline env region roleArg default_bucket projName projId mpg).logs := by
  refine ⟨by rw [hhyp]; rfl, ?_, ?_⟩ <;>
    simp only [get_pipeline, hrole, hfg, hhyp, hpuri, readParams_error, dictGet_nil,
      hfreq, htcol, hplen, hduri, bstep_ok, bstep_error, List.mem_append,
      List.mem_cons, List.mem_singleton] <;>
    simp

/-- C1 witness: the amended claim instantiated at a concrete configuration
whose hyperparameters read throws `ThrottlingException`. -/
theorem c1_amended_hyper_read_failure_witness :
    (readParams sampleEnvHyperFail.getParametersHyper
      "model training hyperparameters").1 = [] ∧
    (get_pipeline sampleEnvHyperFail "eu-west-1" (some "r") none none none
      "Blockchain").result = Except.error ⟨"KeyError: epochs"⟩ ∧
    ("An error occurred reading the model training hyperparameters: " ++
      "ThrottlingException")
      ∈ (get_pipeline sampleEnvHyperFail "eu-west-1" (some "r") none none none
        "Blockchain").logs :=
  c1_amended_hyper_read_failure sampleEnvHyperFail "eu-west-1" (some "r")
    none none none "Blockchain" "r" "fg-blockchain" "base-python:310" "deepar:1"
    "H" "tx_count" "24" ⟨"ThrottlingException"⟩ (by decide) (by decide) (by decide)
    (by decide) (by decide) (by decide) (by decide) (by decide)

/-- C2 counterexample: the feature-group-name read (pipeline.py lines 240-242)
is not inside any try block; its failure propagates to the caller with nothing
logged, refuting the claim that every parameter-store read failure is caught
and logged. -/
theorem c2_counterexample :
    get_pipeline sampleEnvFgFail "eu-west-1" (some "r") none none none "Blockchain"
      = ⟨[], Except.error ⟨"AccessDeniedException"⟩⟩ := by decide

/-- C2 (amended): failures of the model-target, training-hyperparameters and
validation-thresholds reads are caught and logged to standard output with the
corresponding mapping left empty, the build proceeding past the read site; the
feature-group-name read, however, is unguarded and its failure propagates to
the caller unmodified and unlogged. -/
theorem c2_amended_guarded_and_unguarded_reads (env : Env) (region : String)
    (roleArg default_bucket projName projId : Option String)
    (mpg role : String) (e : PyErr)
    (hrole : resolveRole roleArg env = Except.ok role) :
    (∀ lbl, readParams (Except.error e) lbl =
      ([], ["An error occurred reading the " ++ lbl ++ ": " ++ e.msg])) ∧
    readThresholds (Except.error e) =
      ([], ["An error occurred reading the model validation thresholds: " ++ e.msg]) ∧
    (env.getParameterFeatureGroup = Except.error e →
      get_pipeline env region roleArg default_bucket projName projId mpg
        = ⟨[], Except.error e⟩) := by
  refine ⟨fun lbl => rfl, rfl, fun hfg => ?_⟩
  simp only [get_pipeline, hrole, hfg, bstep_ok, bstep_error]

/-- C2 witness: the amended claim instantiated at a concrete configuration
whose feature-group-name read throws `AccessDeniedException`. -/
theorem c2_amended_guarded_and_unguarded_reads_witness :
    readParams (Except.error ⟨"AccessDeniedException"⟩) "model target parameters"
      = ([], ["An error occurred reading the model target parameters: " ++
          "AccessDeniedException"]) ∧
    readThresholds (Except.error ⟨"AccessDeniedException"⟩)
      = ([], ["An error occurred reading the model validation thresholds: " ++
          "AccessDeniedException"]) ∧
    get_pipeline sampleEnvFgFail "eu-west-1" (some "r") none none none "Blockchain"
      = ⟨[], Except.error ⟨"AccessDeniedException"⟩⟩ := by
  have T := c2_amended_guarded_and_unguarded_reads sampleEnvFgFail "eu-west-1"
    (some "r") none none none "Blockchain" "r" ⟨"AccessDeniedException"⟩ (by decide)
  exact ⟨T.1 "model target parameters", T.2.1, T.2.2 (by decide)⟩

/-- C5: if describing the project or listing its tags fails, the exception is
caught and logged and `get_pipeline_custom_tags` returns the caller-supplied
tag list unchanged. -/
theorem c5_tag_lookup_failure_returns_input (env : TagEnv) (new_tags : List Tag)
    (region : String) (pn : Option String) (e : PyErr) :
    (env.describeProject pn = Except.error e →
      get_pipeline_custom_tags env new_tags region pn
        = (new_tags, ["Error getting project tags: " ++ e.msg])) ∧
    (∀ arn, env.describeProject pn = Except.ok arn →
      env.listTags arn = Except.error e →
      get_pipeline_custom_tags env new_tags region pn
        = (new_tags, ["Error getting project tags: " ++ e.msg])) := by
  constructor
  · intro h; simp only [get_pipeline_custom_tags, h]
  · intro arn h1 h2; simp only [get_pipeline_custom_tags, h1, h2]

/-- C5 witness: both failure modes at concrete tag environments leave the
caller-supplied list `[("a", "b")]` unchanged and log the error. -/
theorem c5_tag_lookup_failure_returns_input_witness :
    get_pipeline_custom_tags sampleTagEnvDescribeFail [("a", "b")] "eu-west-1" none
      = ([("a", "b")], ["Error getting project tags: " ++ "ValidationException"]) ∧
    get_pipeline_custom_tags sampleTagEnvListFail [("a", "b")] "eu-west-1" none
      = ([("a", "b")], ["Error getting project tags: " ++ "AccessDeniedException"]) :=
  ⟨(c5_tag_lookup_failure_returns_input sampleTagEnvDescribeFail [("a", "b")]
      "eu-west-1" none ⟨"ValidationException"⟩).1 (by decide),
   (c5_tag_lookup_failure_returns_input sampleTagEnvListFail [("a", "b")]
      "eu-west-1" none ⟨"AccessDeniedException"⟩).2
     "arn:aws:sagemaker:project/p1" (by decide) (by decide)⟩

/-- C6: failures of the platform calls other than the guarded reads and tag
lookups — execution-role resolution, the two container-image lookups, and
pipeline-object construction — are not caught and propagate to the caller
unmodified. -/
theorem c6_platform_failures_propagate (env : Env) (region : String)
    (default_bucket projName projId : Option String) (mpg : String) (e : PyErr) :
    (env.executionRole = Except.error e →
      get_pipeline env region none default_bucket projName projId mpg
        = ⟨[], Except.error e⟩) ∧
    (∀ roleArg role fg, resolveRole roleArg env = Except.ok role →
      env.getParameterFeatureGroup = Except.ok fg →
      env.basePythonImageUri = Except.error e →
      (get_pipeline env region roleArg default_bucket projName projId mpg).result
        = Except.error e) ∧
    (∀ roleArg role fg puri freq tcol plen,
      resolveRole roleArg env = Except.ok role →
      env.getParameterFeatureGroup = Except.ok fg →
      env.basePythonImageUri = Except.ok puri →
      dictGet (readParams env.getParametersTarget "model target parameters").1
        "freq" = Except.ok freq →
      dictGet (readParams env.getParametersTarget "model target parameters").1
        "target_col" = Except.ok tcol →
      dictGet (readParams env.getParametersTarget "model target parameters").1
        "prediction_length" = Except.ok plen →
      env.deeparImageUri = Except.error e →
      (get_pipeline env region roleArg default_bucket projName projId mpg).result
        = Except.error e) ∧
    (∀ roleArg role fg puri freq tcol plen duri epochs esp mbs lr mql,
      resolveRole roleArg env = Except.ok role →
      env.getParameterFeatureGroup = Except.ok fg →
      env.basePythonImageUri = Except.ok puri →
      dictGet (readParams env.getParametersTarget "model target parameters").1
        "freq" = Except.ok freq →
      dictGet (readParams env.getParametersTarget "model target parameters").1
        "target_col" = Except.ok tcol →
      dictGet (readParams env.getParametersTarget "model target parameters").1
        "prediction_length" = Except.ok plen →
      env.deeparImageUri = Except.ok duri →
      dictGet (readParams env.getParametersHyper "model training hyperparameters").1
        "epochs" = Except.ok epochs →
      dictGet (readParams env.getParametersHyper "model training hyperparameters").1
        "early_stopping_patience" = Except.ok esp →
      dictGet (readParams env.getParametersHyper "model training hyperparameters").1
        "mini_batch_size" = Except.ok mbs →
      dictGet (readParams env.getParametersHyper "model training hyperparameters").1
        "learning_rate" = Except.ok lr →
      dictGet (readThresholds env.getParametersThresholds).1
        "mean_quantile_loss" = Except.ok mql →
      env.pipelineConstruct = Except.error e →
      (get_pipeline env region roleArg default_bucket projName projId mpg).result
        = Except.error e) := by
  refine ⟨fun h => ?_, fun roleArg role fg h1 h2 h3 => ?_,
    fun roleArg role fg puri freq tcol plen h1 h2 h3 h4 h5 h6 h7 => ?_,
    fun roleArg role fg puri freq tcol plen duri epochs esp mbs lr mql
      h1 h2 h3 h4 h5 h6 h7 h8 h9 h10 h11 h12 h13 => ?_⟩
  · simp only [get_pipeline, resolveRole, h, bstep_error]
  · simp only [get_pipeline, h1, h2, h3, bstep_ok, bstep_error]
  · simp only [get_pipeline, h1, h2, h3, h4, h5, h6, h7, bstep_ok, bstep_error]
  · simp only [get_pipeline, h1, h2, h3, h4, h5, h6, h7, h8, h9, h10, h11, h12,
      h13, bstep_ok, bstep_error]

/-- C6 witness: each of the four failure sites instantiated at a concrete
configuration; the raised exception is returned to the caller unmodified. -/
theorem c6_platform_failures_propagate_witness :
    get_pipeline sampleEnvRoleFail "eu-west-1" none none none none "Blockchain"
      = ⟨[], Except.error ⟨"NoCredentialsError"⟩⟩ ∧
    (get_pipeline sampleEnvImageFail "eu-west-1" (some "r") none none none
      "Blockchain").result = Except.error ⟨"ConnectionError"⟩ ∧
    (get_pipeline sampleEnvDeeparFail "eu-west-1" (some "r") none none none
      "Blockchain").result = Except.error ⟨"ValueError"⟩ ∧
    (get_pipeline sampleEnvConstructFail "eu-west-1" (some "r") none none none
      "Blockchain").result = Except.error ⟨"TypeError"⟩ :=
  ⟨(c6_platform_failures_propagate sampleEnvRoleFail "eu-west-1" none none none
      "Blockchain" ⟨"NoCredentialsError"⟩).1 (by decide),
   (c6_platform_failures_propagate sampleEnvImageFail "eu-west-1" none none none
      "Blockchain" ⟨"ConnectionError"⟩).2.1 (some "r") "r" "fg-blockchain"
     (by decide) (by decide) (by decide),
   (c6_platform_failures_propagate sampleEnvDeeparFail "eu-west-1" none none none
      "Blockchain" ⟨"ValueError"⟩).2.2.1 (some "r") "r" "fg-blockchain"
     "base-python:310" "H" "tx_count" "24" (by decide) (by decide) (by decide)
     (by decide) (by decide) (by decide) (by decide),
   (c6_platform_failures_propagate sampleEnvConstructFail "eu-west-1" none none
      none "Blockchain" ⟨"TypeError"⟩).2.2.2 (some "r") "r" "fg-blockchain"
     "base-python:310" "H" "tx_count" "24" "deepar:1" "50" "10" "64" "0.001" 2
     (by decide) (by decide) (by decide) (by decide) (by decide) (by decide)
     (by decide) (by decide) (by decide) (by decide) (by decide) (by decide)
     (by decide)⟩

/-- C7: the builder is structurally deterministic — two invocations with the
same arguments whose external lookups return identical values produce
identical results (in particular identical step names and identical parameter
and property-reference wiring). -/
theorem c7_builder_deterministic (env1 env2 : Env) (region : String)
    (roleArg default_bucket projName projId : Option String) (mpg : String)
    (h1 : env1.getParameterFeatureGroup = env2.getParameterFeatureGroup)
    (h2 : env1.getParametersTarget = env2.getParametersTarget)
    (h3 : env1.getParametersHyper = env2.getParametersHyper)
    (h4 : env1.getParametersThresholds = env2.getParametersThresholds)
    (h5 : env1.basePythonImageUri = env2.basePythonImageUri)
    (h6 : env1.deeparImageUri = env2.deeparImageUri)
    (h7 : env1.executionRole = env2.executionRole)
    (h8 : env1.defaultBucket = env2.defaultBucket)
    (h9 : env1.baseDir = env2.baseDir)
    (h10 : env1.pipelineConstruct = env2.pipelineConstruct) :
    get_pipeline env1 region roleArg default_bucket projName projId mpg
      = get_pipeline env2 region roleArg default_bucket projName projId mpg := by
  have henv : env1 = env2 := by
    cases env1; cases env2; simp_all
  rw [henv]

/-- C7 witness: determinism instantiated at a concrete configuration. -/
theorem c7_builder_deterministic_witness :
    get_pipeline sampleEnv "eu-west-1" (some "r") none none none "Blockchain"
      = get_pipeline sampleEnv "eu-west-1" (some "r") none none none "Blockchain" :=
  c7_builder_deterministic sampleEnv sampleEnv "eu-west-1" (some "r") none none
    none "Blockchain" rfl rfl rfl rfl rfl rfl rfl rfl rfl rfl

/-- C3: in any pipeline the builder returns, the condition step's single
condition compares the `JsonGet` of `deepar_metrics.mean_quantile_loss.value`
from the evaluation report of the EvaluateModel step against the configured
threshold with less-than-or-equal-to, its if-branch contains exactly the
RegisterModel step, and its else-branch contains no steps. -/
theorem c3_condition_step_structure (env : Env) (region : String)
    (roleArg default_bucket projName projId : Option String)
    (mpg : String) (p : PipelineSpec) (mql : Rat)
    (h : (get_pipeline env region roleArg default_bucket projName projId mpg).result
      = Except.ok p)
    (hmql : dictGet (readThresholds env.getParametersThresholds).1
      "mean_quantile_loss" = Except.ok mql) :
    condConditions (lastStep p) =
      [ConditionSpec.lessThanOrEqualTo
        ⟨EVALUATION_STEP_NAME, EVALUATION_REPORT_NAME,
          "deepar_metrics.mean_quantile_loss.value"⟩ mql] ∧
    condIfStepNames (lastStep p) = [REGISTER_MODEL_STEP_NAME] ∧
    condElseSteps (lastStep p) = [] := by
  obtain ⟨role, fg, puri, freq, tcol, plen, duri, epochs, esp, mbs, lr, mql2,
    -, -, -, -, -, -, -, -, -, -, -, hmql2, -, hp⟩ :=
    get_pipeline_ok_shape env region roleArg default_bucket projName projId mpg p h
  rw [hmql] at hmql2
  injection hmql2 with hh
  subst hh
  subst hp
  exact ⟨rfl, rfl, rfl⟩

/-- C3 witness: the condition-step structure of the concrete sample build,
whose configured threshold is 2. -/
theorem c3_condition_step_structure_witness :
    condConditions (lastStep samplePipeline) =
      [ConditionSpec.lessThanOrEqualTo
        ⟨EVALUATION_STEP_NAME, EVALUATION_REPORT_NAME,
          "deepar_metrics.mean_quantile_loss.value"⟩ 2] ∧
    condIfStepNames (lastStep samplePipeline) = [REGISTER_MODEL_STEP_NAME] ∧
    condElseSteps (lastStep samplePipeline) = [] :=
  c3_condition_step_structure sampleEnv "eu-west-1"
    (some "arn:aws:iam::123456789012:role/pipeline") none none none "Blockchain"
    samplePipeline 2 (by decide) (by decide)

/-- C4: any pipeline the builder returns has exactly the ordered top-level
steps PreprocessData, TrainModel, CreateModel, Transform, EvaluateModel,
QualityCheck, CheckMQLCondition, with RegisterModel nested in the condition
step's if-branch, and every property reference or dependency points only to a
step defined earlier in that order. -/
theorem c4_step_graph_structure (env : Env) (region : String)
    (roleArg default_bucket projName projId : Option String)
    (mpg : String) (p : PipelineSpec)
    (h : (get_pipeline env region roleArg default_bucket projName projId mpg).result
      = Except.ok p) :
    p.steps.map stepName = [PROCESSING_STEP_NAME, TRAINING_STEP_NAME,
      CREATE_MODEL_STEP_NAME, TRANSFORM_STEP_NAME, EVALUATION_STEP_NAME,
      MODEL_QUALITY_CHECK_STEP_NAME, CONDITON_STEP_NAME] ∧
    p.steps.map condIfStepNames =
      [[], [], [], [], [], [], [REGISTER_MODEL_STEP_NAME]] ∧
    refsWellOrdered p.steps = true := by
  obtain ⟨role, fg, puri, freq, tcol, plen, duri, epochs, esp, mbs, lr, mql,
    -, -, -, -, -, -, -, -, -, -, -, -, -, hp⟩ :=
    get_pipeline_ok_shape env region roleArg default_bucket projName projId mpg p h
  subst hp
  exact ⟨rfl, rfl, rfl⟩

/-- C4 witness: the step graph of the concrete sample build. -/
theorem c4_step_graph_structure_witness :
    samplePipeline.steps.map stepName = [PROCESSING_STEP_NAME, TRAINING_STEP_NAME,
      CREATE_MODEL_STEP_NAME, TRANSFORM_STEP_NAME, EVALUATION_STEP_NAME,
      MODEL_QUALITY_CHECK_STEP_NAME, CONDITON_STEP_NAME] ∧
    samplePipeline.steps.map condIfStepNames =
      [[], [], [], [], [], [], [REGISTER_MODEL_STEP_NAME]] ∧
    refsWellOrdered samplePipeline.steps = true :=
  c4_step_graph_structure sampleEnv "eu-west-1"
    (some "arn:aws:iam::123456789012:role/pipeline") none none none "Blockchain"
    samplePipeline (by decide)

/-- C8: a `None` project name defaults to "blockchain-forecasting", a `None`
project id defaults to "mlops-pipeline", and the returned pipeline's name is
always the project name and project id joined by a hyphen. -/
theorem c8_default_names_and_pipeline_name (env : Env) (region : String)
    (roleArg default_bucket projName projId : Option String)
    (mpg : String) (p : PipelineSpec)
    (h : (get_pipeline env region roleArg default_bucket projName projId mpg).result
      = Except.ok p) :
    p.name = (projName.getD "blockchain-forecasting") ++ "-" ++
      (projId.getD "mlops-pipeline") := by
  obtain ⟨role, fg, puri, freq, tcol, plen, duri, epochs, esp, mbs, lr, mql,
    -, -, -, -, -, -, -, -, -, -, -, -, -, hp⟩ :=
    get_pipeline_ok_shape env region roleArg default_bucket projName projId mpg p h
  subst hp
  rfl

/-- C8 witness: the sample build is invoked with both naming arguments absent
and its pipeline name is the two defaults joined by a hyphen. -/
theorem c8_default_names_and_pipeline_name_witness :
    samplePipeline.name = "blockchain-forecasting" ++ "-" ++ "mlops-pipeline" :=
  c8_default_names_and_pipeline_name sampleEnv "eu-west-1"
    (some "arn:aws:iam::123456789012:role/pipeline") none none none "Blockchain"
    samplePipeline (by decide)

/-- C9: the parameter list of any returned pipeline holds exactly the six
declared execution-time placeholders together with three plain string
constants — the processing instance type, the training instance type, and the
feature-group name — which are not parameter placeholders. -/
theorem c9_parameter_list (env : Env) (region : String)
    (roleArg default_bucket projName projId : Option String)
    (mpg fg : String) (p : PipelineSpec)
    (h : (get_pipeline env region roleArg default_bucket projName projId mpg).result
      = Except.ok p)
    (hfg : env.getParameterFeatureGroup = Except.ok fg) :
    p.parameters = [
      ParamEntry.strConst PROCESSING_INSTANCE_TYPE,
      ParamEntry.param (Param.pInt "ProcessingInstanceCount" 1),
      ParamEntry.strConst TRAINING_INSTANCE_TYPE,
      ParamEntry.param (Param.pStr "ModelApprovalStatus" "PendingManualApproval"),
      ParamEntry.strConst fg,
      ParamEntry.param (Param.pBool "SkipModelQualityCheck" false),
      ParamEntry.param (Param.pBool "RegisterNewModelQualityBaseline" false),
      ParamEntry.param (Param.pStr "ModelQualitySuppliedStatistics" ""),
      ParamEntry.param (Param.pStr "ModelQualitySuppliedConstraints" "")] := by
  obtain ⟨role, fg2, puri, freq, tcol, plen, duri, epochs, esp, mbs, lr, mql,
    -, hfg2, -, -, -, -, -, -, -, -, -, -, -, hp⟩ :=
    get_pipeline_ok_shape env region roleArg default_bucket projName projId mpg p h
  rw [hfg] at hfg2
  injection hfg2 with hh
  subst hh
  subst hp
  rfl

/-- C9 witness: the parameter list of the concrete sample build. -/
theorem c9_parameter_list_witness :
    samplePipeline.parameters = [
      ParamEntry.strConst PROCESSING_INSTANCE_TYPE,
      ParamEntry.param (Param.pInt "ProcessingInstanceCount" 1),
      ParamEntry.strConst TRAINING_INSTANCE_TYPE,
      ParamEntry.param (Param.pStr "ModelApprovalStatus" "PendingManualApproval"),
      ParamEntry.strConst "fg-blockchain",
      ParamEntry.param (Param.pBool "SkipModelQualityCheck" false),
      ParamEntry.param (Param.pBool "RegisterNewModelQualityBaseline" false),
      ParamEntry.param (Param.pStr "ModelQualitySuppliedStatistics" ""),
      ParamEntry.param (Param.pStr "ModelQualitySuppliedConstraints" "")] :=
  c9_parameter_list sampleEnv "eu-west-1"
    (some "arn:aws:iam::123456789012:role/pipeline") none none none "Blockchain"
    "fg-blockchain" samplePipeline (by decide) (by decide)

/-- C10: every training-job specification in any returned pipeline requests
spot instances with a maximum run time of 3599 seconds and a maximum wait
time of 3600 seconds, the run time strictly below the wait time. -/
theorem c10_training_spot_config (env : Env) (region : String)
    (roleArg default_bucket projName projId : Option String)
    (mpg : String) (p : PipelineSpec)
    (h : (get_pipeline env region roleArg default_bucket projName projId mpg).result
      = Except.ok p) :
    ∀ est ∈ pipelineEstimators p,
      est.useSpotInstances = true ∧ est.maxRun = 3599 ∧ est.maxWait = 3600 ∧
        est.maxRun < est.maxWait := by
  obtain ⟨role, fg, puri, freq, tcol, plen, duri, epochs, esp, mbs, lr, mql,
    -, -, -, -, -, -, -, -, -, -, -, -, -, hp⟩ :=
    get_pipeline_ok_shape env region roleArg default_bucket projName projId mpg p h
  subst hp
  intro est hest
  simp only [pipelineEstimators, mkPipeline, stepEstimators, basicEstimator?,
    List.flatMap, List.map, List.flatten, Option.toList, List.filterMap,
    List.append_nil, List.nil_append, List.mem_singleton, List.mem_append,
    List.mem_cons, List.not_mem_nil, or_false, false_or] at hest
  subst hest
  refine ⟨rfl, rfl, rfl, ?_⟩
  show (60 * 60 - 1 : Nat) < 60 * 60
  decide

/-- C10 witness: the sample build's single training-job specification,
evaluated concretely. -/
theorem c10_training_spot_config_witness :
    sampleEstimator ∈ pipelineEstimators samplePipeline ∧
    (sampleEstimator.useSpotInstances = true ∧ sampleEstimator.maxRun = 3599 ∧
      sampleEstimator.maxWait = 3600 ∧
      sampleEstimator.maxRun < sampleEstimator.maxWait) :=
  ⟨by decide,
   c10_training_spot_config sampleEnv "eu-west-1"
     (some "arn:aws:iam::123456789012:role/pipeline") none none none "Blockchain"
     samplePipeline (by decide) sampleEstimator (by decide)⟩
